import Mathlib

/-!
Verification of the two plotting scripts of Python-graph-template
(グラフ1.py and グラフ2.py) against their natural-language specification.

Numeric formulas (theory evaluators) are embedded over the real numbers.
Spreadsheet cells are embedded as `Option ℚ`: `none` models a NaN cell
(missing value), `some q` a finite numeric cell; Excel spreadsheets read
by the loader cannot contain infinities, so non-finite means NaN here.
The script control flow (loading, masking, fitting with its try/except,
saving and the file-open fallback chain) is embedded as explicit
state-passing functions returning `Except` where the Python code can
raise.
-/

namespace Graph1

/-- PARAM_A of グラフ1.py: the asymptotic temperature Tmax (℃). -/
def PARAM_A : ℝ := 50

/-- PARAM_B of グラフ1.py: the ambient (initial) temperature T0 (℃). -/
def PARAM_B : ℝ := 25

/-- PARAM_C of グラフ1.py: the time constant of channel 1 (minutes). -/
def PARAM_C : ℝ := 15

/-- PARAM_D of グラフ1.py: the time constant of channel 2 (minutes). -/
def PARAM_D : ℝ := 25

/-- Pointwise body of calc_theory of グラフ1.py: numpy evaluates the two
formulas elementwise over the input array, so the function is the
elementwise map of this body.
y1 = PARAM_A + (PARAM_B - PARAM_A) * exp(-t/PARAM_C),
y2 = PARAM_A + (PARAM_B - PARAM_A) * exp(-t/PARAM_D). -/
noncomputable def calc_theory (t : ℝ) : ℝ × ℝ :=
  (PARAM_A + (PARAM_B - PARAM_A) * Real.exp (-t / PARAM_C),
   PARAM_A + (PARAM_B - PARAM_A) * Real.exp (-t / PARAM_D))

/-- calc_theory of グラフ1.py on a whole input sequence, as the script
applies it to the numpy array of time points. -/
noncomputable def calc_theory_seq (x_data : List ℝ) : List ℝ × List ℝ :=
  (x_data.map fun t => (calc_theory t).1,
   x_data.map fun t => (calc_theory t).2)

/-- Modelled from the spec, section 4.2: the exponential relaxation law
T(t) = Tmax + (T0 - Tmax)·exp(-t/τ). -/
noncomputable def spec_T (Tmax T0 τ t : ℝ) : ℝ :=
  Tmax + (T0 - Tmax) * Real.exp (-t / τ)

end Graph1

namespace Graph2

/-- PARAM_A of グラフ2.py: the angular-frequency conversion factor 2π. -/
noncomputable def PARAM_A : ℝ := 2 * Real.pi

/-- PARAM_B of グラフ2.py: documented in the source as the RC time
constant in seconds (10 ** -6, with the comment fc = 1/(2πRC) ≈ 159.2 kHz). -/
noncomputable def PARAM_B : ℝ := 10 ^ (-6 : ℤ)

/-- PARAM_C of グラフ2.py: the differentiator gain coefficient K
(10 ** -3, with the comment that it caps the high-frequency gain at 1/1000). -/
noncomputable def PARAM_C : ℝ := 10 ^ (-3 : ℤ)

/-- Pointwise body of calc_theory of グラフ2.py, exactly as implemented:
omega = PARAM_A * f, denominator = sqrt(1 + PARAM_B * omega ** 2),
y1 = 1 / denominator, y2 = PARAM_C * omega / denominator.
Note the implementation multiplies omega ** 2 by PARAM_B once (RC·ω²),
not by PARAM_B ** 2 as the squared product (ωRC)² would require. -/
noncomputable def calc_theory (f : ℝ) : ℝ × ℝ :=
  let omega := PARAM_A * f
  let denominator := Real.sqrt (1 + PARAM_B * omega ^ 2)
  (1 / denominator, PARAM_C * omega / denominator)

/-- calc_theory of グラフ2.py on a whole input sequence. -/
noncomputable def calc_theory_seq (x_data : List ℝ) : List ℝ × List ℝ :=
  (x_data.map fun f => (calc_theory f).1,
   x_data.map fun f => (calc_theory f).2)

/-- Modelled from the spec, section 4.2 (and the docstring of calc_theory
of グラフ2.py): G1(f) = 1/sqrt(1+(ωRC)²) with ω = 2πf and RC = PARAM_B. -/
noncomputable def spec_G1 (f : ℝ) : ℝ :=
  1 / Real.sqrt (1 + (2 * Real.pi * f * PARAM_B) ^ 2)

/-- Modelled from the spec, section 4.2 (and the docstring of calc_theory
of グラフ2.py): G2(f) = K·ωRC/sqrt(1+(ωRC)²) with ω = 2πf, RC = PARAM_B,
K = PARAM_C. -/
noncomputable def spec_G2 (f : ℝ) : ℝ :=
  PARAM_C * (2 * Real.pi * f * PARAM_B) /
    Real.sqrt (1 + (2 * Real.pi * f * PARAM_B) ^ 2)

end Graph2

namespace Data

/-- A spreadsheet cell as pandas sees it after read_excel: none models a
NaN (missing) entry, some q a finite numeric value; Excel cells cannot
hold infinities, so non-finite coincides with NaN. -/
abbrev Cell := Option ℚ

/-- np.isnan on one cell. -/
def isnan (c : Cell) : Bool := c.isNone

/-- The pandas comparison (cell > 0): false on NaN, 0 < q on a number. -/
def posCell (c : Cell) : Bool :=
  match c with
  | none => false
  | some q => decide (0 < q)

/-- Row predicate of the mask of グラフ1.py:
(~isnan x) & (~isnan y1) & (~isnan y2). -/
def mask1cell (a b c : Cell) : Bool :=
  (!isnan a) && (!isnan b) && (!isnan c)

/-- Row predicate of the mask of グラフ2.py:
(x > 0) & (y1 > 0) & (y2 > 0) & (~isnan x) & (~isnan y1) & (~isnan y2). -/
def mask2cell (a b c : Cell) : Bool :=
  ((posCell a && posCell b) && posCell c) &&
    ((!isnan a) && (!isnan b) && (!isnan c))

/-- The shared boolean mask: the row predicate evaluated across the three
aligned series. -/
def mask3 (p : Cell → Cell → Cell → Bool) :
    List Cell → List Cell → List Cell → List Bool
  | x :: xs, y :: ys, z :: zs => p x y z :: mask3 p xs ys zs
  | _, _, _ => []

/-- Applying a boolean mask to one series, keeping the rows marked true. -/
def applyMask {α : Type} : List Bool → List α → List α
  | true :: ms, a :: as => a :: applyMask ms as
  | false :: ms, _ :: as => applyMask ms as
  | _, _ => []

end Data

namespace Graph1

/-- The invalid-row removal of グラフ1.py: one boolean mask computed from
the three series, applied identically to each of them. -/
def clean (xs ys zs : List Data.Cell) :
    List Data.Cell × List Data.Cell × List Data.Cell :=
  let mask := Data.mask3 Data.mask1cell xs ys zs
  (Data.applyMask mask xs, Data.applyMask mask ys, Data.applyMask mask zs)

end Graph1

namespace Graph2

/-- The invalid-row removal of グラフ2.py: one boolean mask computed from
the three series, applied identically to each of them. -/
def clean (xs ys zs : List Data.Cell) :
    List Data.Cell × List Data.Cell × List Data.Cell :=
  let mask := Data.mask3 Data.mask2cell xs ys zs
  (Data.applyMask mask xs, Data.applyMask mask ys, Data.applyMask mask zs)

/-- The arguments the fitter of グラフ2.py passes to np.log10: the
cleaned x series (twice, once per fit and reconstruction, deduplicated
here), the cleaned y1 series and the cleaned y2 series. -/
def log10_args (xs ys zs : List Data.Cell) : List Data.Cell :=
  (clean xs ys zs).1 ++ (clean xs ys zs).2.1 ++ (clean xs ys zs).2.2

end Graph2

/-- Column access df[name] of a loaded spreadsheet: a KeyError escapes if
the named column is absent. The spreadsheet is its list of named columns. -/
def getCol (table : List (String × List Data.Cell)) (name : String) :
    Except String (List Data.Cell) :=
  match table.lookup name with
  | some l => Except.ok l
  | none => Except.error ("KeyError: " ++ name)

/-- Built-in max over a numeric series: ValueError on an empty series,
otherwise the largest value. -/
def seriesMax (l : List Data.Cell) : Except String ℚ :=
  match l.filterMap id with
  | [] => Except.error "ValueError: max() arg is an empty sequence"
  | q :: qs => Except.ok (qs.foldl max q)

namespace Graph1

/-- X_COL of グラフ1.py. -/
def X_COL : String := "Time"

/-- Y1_COL of グラフ1.py. -/
def Y1_COL : String := "Temp1"

/-- Y2_COL of グラフ1.py. -/
def Y2_COL : String := "Temp2"

/-- The data-loading stage of グラフ1.py: the three column accesses, in
source order; any missing column escapes as an error. -/
def load (table : List (String × List Data.Cell)) :
    Except String (List Data.Cell × List Data.Cell × List Data.Cell) :=
  match getCol table X_COL with
  | Except.error e => Except.error e
  | Except.ok x =>
    match getCol table Y1_COL with
    | Except.error e => Except.error e
    | Except.ok y1 =>
      match getCol table Y2_COL with
      | Except.error e => Except.error e
      | Except.ok y2 => Except.ok (x, y1, y2)

/-- The fit stage of グラフ1.py: the try block computes and draws fit 1,
then computes and draws fit 2; the except arm catches any failure, prints
the two messages and leaves the remaining fit series undrawn. The two
np.polyfit outcomes are inputs of the stage (the least-squares solver
itself lives in LAPACK). Result: which fit series were drawn, and the
printed log lines. -/
def fit_stage (r1 r2 : Except String (ℚ × ℚ × ℚ)) :
    (Bool × Bool) × List String :=
  match r1 with
  | Except.error e =>
      ((false, false),
       ["近似曲線の計算でエラーが発生しました: " ++ e,
        "近似曲線の表示をスキップします"])
  | Except.ok _ =>
    match r2 with
    | Except.error e =>
        ((true, false),
         ["近似曲線の計算でエラーが発生しました: " ++ e,
          "近似曲線の表示をスキップします"])
    | Except.ok _ => ((true, true), [])

/-- Final state of a completed run of グラフ1.py. -/
structure RunState where
  xmax : ℚ
  fitDrawn : Bool × Bool
  fitLogs : List String
  saved : Bool
  deriving DecidableEq

/-- The main flow of グラフ1.py after configuration: load, mask, scatter,
theory curve over linspace(0, max(x_data), 200) — whose range bound
max(x_data) raises on empty data — then the guarded fit stage, then
savefig. An Except.error result models an uncaught exception aborting the
run before the image is saved. -/
def run (table : List (String × List Data.Cell))
    (r1 r2 : Except String (ℚ × ℚ × ℚ)) : Except String RunState :=
  match load table with
  | Except.error e => Except.error e
  | Except.ok (x, y1, y2) =>
    match seriesMax (clean x y1 y2).1 with
    | Except.error e => Except.error e
    | Except.ok m =>
      Except.ok
        { xmax := m
          fitDrawn := (fit_stage r1 r2).1
          fitLogs := (fit_stage r1 r2).2
          saved := true }

end Graph1

namespace Graph2

/-- X_COL of グラフ2.py. -/
def X_COL : String := "Hz"

/-- Y1_COL of グラフ2.py. -/
def Y1_COL : String := "G_s"

/-- Y2_COL of グラフ2.py. -/
def Y2_COL : String := "G_b"

/-- The data-loading stage of グラフ2.py. -/
def load (table : List (String × List Data.Cell)) :
    Except String (List Data.Cell × List Data.Cell × List Data.Cell) :=
  match getCol table X_COL with
  | Except.error e => Except.error e
  | Except.ok x =>
    match getCol table Y1_COL with
    | Except.error e => Except.error e
    | Except.ok y1 =>
      match getCol table Y2_COL with
      | Except.error e => Except.error e
      | Except.ok y2 => Except.ok (x, y1, y2)

/-- The fit stage of グラフ2.py: same try/except shape as in グラフ1.py,
with the log-log fits (slope, intercept) as the np.polyfit outcomes and
the script's own message strings. -/
def fit_stage (r1 r2 : Except String (ℚ × ℚ)) :
    (Bool × Bool) × List String :=
  match r1 with
  | Except.error e =>
      ((false, false),
       ["近似直線の計算でエラーが発生しました: " ++ e,
        "近似直線の表示をスキップします"])
  | Except.ok _ =>
    match r2 with
    | Except.error e =>
        ((true, false),
         ["近似直線の計算でエラーが発生しました: " ++ e,
          "近似直線の表示をスキップします"])
    | Except.ok _ => ((true, true), [])

/-- Final state of a completed run of グラフ2.py. -/
structure RunState where
  fitDrawn : Bool × Bool
  fitLogs : List String
  saved : Bool
  deriving DecidableEq

/-- The main flow of グラフ2.py after configuration: load, mask, scatter,
theory curve evaluated directly on the cleaned x series (no range bound,
hence no max), the guarded fit stage, then savefig. -/
def run (table : List (String × List Data.Cell))
    (r1 r2 : Except String (ℚ × ℚ)) : Except String RunState :=
  match load table with
  | Except.error e => Except.error e
  | Except.ok (_x, _y1, _y2) =>
    Except.ok
      { fitDrawn := (fit_stage r1 r2).1
        fitLogs := (fit_stage r1 r2).2
        saved := true }

end Graph2

/-- One subprocess.run attempt inside a try block: the boolean says
whether the call raises (e.g. the opener executable is missing). -/
def try_open (fails : Bool) (cmd : String) : Except Unit String :=
  if fails then Except.error () else Except.ok cmd

/-- The save-and-open tail of both scripts: try the macOS opener, on
exception try the Windows opener, on exception try the Linux opener, and
on a final exception print the two fallback lines naming the output path.
Result: the opener commands attempted in order, and the printed fallback
message if any; every branch returns normally. -/
def open_chain (f1 f2 f3 : Bool) (path : String) :
    Except String (List String × Option String) :=
  match try_open f1 "open" with
  | Except.ok c => Except.ok ([c], none)
  | Except.error _ =>
    match try_open f2 "start" with
    | Except.ok c => Except.ok (["open", c], none)
    | Except.error _ =>
      match try_open f3 "xdg-open" with
      | Except.ok c => Except.ok (["open", "start", c], none)
      | Except.error _ =>
        Except.ok (["open", "start", "xdg-open"],
          some ("グラフを保存しました: " ++ path ++
            " ファイルを手動で開いてください。"))

/-- C5: for every input time sequence, pipeline 1's theory evaluator
returns two channels each equal to T(t) = Tmax + (T0 - Tmax)·exp(-t/τ)
with Tmax = PARAM_A, T0 = PARAM_B, and τ = PARAM_C (channel 1)
respectively PARAM_D (channel 2). -/
theorem graph1_calc_theory_matches_spec (xs : List ℝ) :
    Graph1.calc_theory_seq xs =
      (xs.map (Graph1.spec_T Graph1.PARAM_A Graph1.PARAM_B Graph1.PARAM_C),
       xs.map (Graph1.spec_T Graph1.PARAM_A Graph1.PARAM_B Graph1.PARAM_D)) := by
  rfl

/-- Helper: the exponential relaxation law tends to its asymptote A as
t tends to infinity, for a positive time constant. -/
lemma tendsto_exp_relax (A B τ : ℝ) (hτ : 0 < τ) :
    Filter.Tendsto (fun t => A + (B - A) * Real.exp (-t / τ))
      Filter.atTop (nhds A) := by
  have hc : (-1 : ℝ) / τ < 0 := div_neg_of_neg_of_pos (by norm_num) hτ
  have h1 : Filter.Tendsto (fun t : ℝ => t * (-1 / τ)) Filter.atTop Filter.atBot :=
    Filter.Tendsto.atTop_mul_const_of_neg hc Filter.tendsto_id
  have h2 : Filter.Tendsto (fun t : ℝ => -t / τ) Filter.atTop Filter.atBot := by
    have he : (fun t : ℝ => -t / τ) = fun t : ℝ => t * (-1 / τ) := by
      funext t; ring
    rw [he]; exact h1
  have h3 : Filter.Tendsto (fun t : ℝ => Real.exp (-t / τ))
      Filter.atTop (nhds 0) := Real.tendsto_exp_atBot.comp h2
  have h4 := (h3.const_mul (B - A)).const_add A
  simpa using h4

/-- C6: pipeline 1's exponential theory function at t = 0 equals the
initial temperature PARAM_B on both channels, and as t tends to infinity
each channel approaches the asymptote PARAM_A. -/
theorem graph1_theory_boundary :
    (Graph1.calc_theory 0).1 = Graph1.PARAM_B ∧
    (Graph1.calc_theory 0).2 = Graph1.PARAM_B ∧
    Filter.Tendsto (fun t => (Graph1.calc_theory t).1)
      Filter.atTop (nhds Graph1.PARAM_A) ∧
    Filter.Tendsto (fun t => (Graph1.calc_theory t).2)
      Filter.atTop (nhds Graph1.PARAM_A) := by
  refine ⟨?_, ?_, ?_, ?_⟩
  · simp [Graph1.calc_theory, Graph1.PARAM_A, Graph1.PARAM_B]
  · simp [Graph1.calc_theory, Graph1.PARAM_A, Graph1.PARAM_B]
  · exact tendsto_exp_relax Graph1.PARAM_A Graph1.PARAM_B Graph1.PARAM_C
      (by norm_num [Graph1.PARAM_C])
  · exact tendsto_exp_relax Graph1.PARAM_A Graph1.PARAM_B Graph1.PARAM_D
      (by norm_num [Graph1.PARAM_D])

/-- C1 (code bug record): at the concrete input f = 1 Hz, the value
computed by calc_theory of グラフ2.py differs from the pair
(G1, G2) = (1/sqrt(1+(ωRC)²), K·ωRC/sqrt(1+(ωRC)²)) stated by the spec
and by the docstring of the function itself: the implementation computes
sqrt(1 + RC·ω²), not sqrt(1 + (RC·ω)²), and multiplies the second
numerator by ω alone instead of ω·RC. -/
theorem graph2_calc_theory_deviates_from_spec :
    Graph2.calc_theory 1 ≠ (Graph2.spec_G1 1, Graph2.spec_G2 1) := by
  have hB : Graph2.PARAM_B = 1 / 1000000 := by
    unfold Graph2.PARAM_B; norm_num
  have hπ2 : (0 : ℝ) < Real.pi ^ 2 := by positivity
  intro h
  have h1 : (1 : ℝ) / Real.sqrt (1 + Graph2.PARAM_B * (Graph2.PARAM_A * 1) ^ 2)
      = 1 / Real.sqrt (1 + (2 * Real.pi * 1 * Graph2.PARAM_B) ^ 2) :=
    congrArg Prod.fst h
  have ha : (0 : ℝ) ≤ 1 + Graph2.PARAM_B * (Graph2.PARAM_A * 1) ^ 2 := by
    rw [hB]; unfold Graph2.PARAM_A; positivity
  have hb : (0 : ℝ) ≤ 1 + (2 * Real.pi * 1 * Graph2.PARAM_B) ^ 2 := by
    positivity
  rw [one_div, one_div, inv_inj] at h1
  have hab := (Real.sqrt_inj ha hb).mp h1
  rw [hB] at hab
  unfold Graph2.PARAM_A at hab
  nlinarith [hπ2, hab]

/-- Helper: numeric value of PARAM_B of グラフ2.py. -/
lemma graph2_PARAM_B_eq : Graph2.PARAM_B = 1 / 1000000 := by
  unfold Graph2.PARAM_B; norm_num

/-- Helper: numeric value of PARAM_C of グラフ2.py. -/
lemma graph2_PARAM_C_eq : Graph2.PARAM_C = 1 / 1000 := by
  unfold Graph2.PARAM_C; norm_num

/-- Helper: the map u ↦ K·u/sqrt(1+B·u²) is strictly increasing on
positive arguments, for positive K and B. -/
lemma g2_mono_aux (Kc Bc u1 u2 : ℝ) (hK : 0 < Kc) (hBc : 0 < Bc)
    (hu1 : 0 < u1) (hu : u1 < u2) :
    Kc * u1 / Real.sqrt (1 + Bc * u1 ^ 2)
      < Kc * u2 / Real.sqrt (1 + Bc * u2 ^ 2) := by
  have hu2 : 0 < u2 := hu1.trans hu
  have h1 : (0 : ℝ) < 1 + Bc * u1 ^ 2 := by positivity
  have h2 : (0 : ℝ) < 1 + Bc * u2 ^ 2 := by positivity
  have hb : 0 ≤ Kc * u2 / Real.sqrt (1 + Bc * u2 ^ 2) := by positivity
  refine lt_of_pow_lt_pow_left 2 hb ?_
  rw [div_pow, div_pow, Real.sq_sqrt h1.le, Real.sq_sqrt h2.le,
    div_lt_div_iff h1 h2]
  have husq : u1 ^ 2 < u2 ^ 2 := by nlinarith
  have hK2 : 0 < Kc ^ 2 := by positivity
  nlinarith [mul_pos hK2 (sub_pos.mpr husq)]

/-- Helper: closed form of the second channel of calc_theory of グラフ2.py
for positive frequency: K·ω/sqrt(1+B·ω²) = (1/1000)/sqrt(ω⁻² + 1/1000000). -/
lemma graph2_G2_closed (f : ℝ) (hf : 0 < f) :
    (Graph2.calc_theory f).2
      = (1 / 1000) / Real.sqrt (((2 * Real.pi * f)⁻¹) ^ 2 + 1 / 1000000) := by
  have hu : 0 < 2 * Real.pi * f := by positivity
  show Graph2.PARAM_C * (Graph2.PARAM_A * f)
      / Real.sqrt (1 + Graph2.PARAM_B * (Graph2.PARAM_A * f) ^ 2) = _
  rw [graph2_PARAM_B_eq, graph2_PARAM_C_eq]
  unfold Graph2.PARAM_A
  have h1 : (1 : ℝ) + 1 / 1000000 * (2 * Real.pi * f) ^ 2
      = (2 * Real.pi * f) ^ 2 * (((2 * Real.pi * f)⁻¹) ^ 2 + 1 / 1000000) := by
    field_simp
    ring
  rw [h1, Real.sqrt_mul (sq_nonneg _), Real.sqrt_sq hu.le]
  have hs : 0 < Real.sqrt (((2 * Real.pi * f)⁻¹) ^ 2 + 1 / 1000000) :=
    Real.sqrt_pos.mpr (by positivity)
  field_simp
  ring

/-- Helper: the second channel of calc_theory of グラフ2.py tends to the
finite limit 1 as the frequency tends to infinity. -/
lemma graph2_G2_tendsto :
    Filter.Tendsto (fun f => (Graph2.calc_theory f).2)
      Filter.atTop (nhds 1) := by
  have t1 : Filter.Tendsto (fun f : ℝ => 2 * Real.pi * f)
      Filter.atTop Filter.atTop :=
    Filter.Tendsto.const_mul_atTop (by positivity) Filter.tendsto_id
  have t2 : Filter.Tendsto (fun f : ℝ => (2 * Real.pi * f)⁻¹)
      Filter.atTop (nhds 0) :=
    tendsto_inv_atTop_zero.comp t1
  have t3 : Filter.Tendsto
      (fun f : ℝ => ((2 * Real.pi * f)⁻¹) ^ 2 + 1 / 1000000)
      Filter.atTop (nhds (1 / 1000000)) := by
    have h := (t2.pow 2).add_const (1 / 1000000 : ℝ)
    simpa using h
  have hs : Real.sqrt (1 / 1000000) = 1 / 1000 := by
    rw [show (1 / 1000000 : ℝ) = (1 / 1000) ^ 2 by norm_num,
      Real.sqrt_sq (by norm_num)]
  have t4 : Filter.Tendsto
      (fun f : ℝ => Real.sqrt (((2 * Real.pi * f)⁻¹) ^ 2 + 1 / 1000000))
      Filter.atTop (nhds (1 / 1000)) := by
    have h := (Real.continuous_sqrt.tendsto (1 / 1000000 : ℝ)).comp t3
    rw [hs] at h
    simpa [Function.comp] using h
  have t5 : Filter.Tendsto
      (fun f : ℝ => (1 / 1000 : ℝ)
        / Real.sqrt (((2 * Real.pi * f)⁻¹) ^ 2 + 1 / 1000000))
      Filter.atTop (nhds 1) := by
    have hconst : Filter.Tendsto (fun _ : ℝ => (1 / 1000 : ℝ))
        Filter.atTop (nhds (1 / 1000)) := tendsto_const_nhds
    have h := hconst.div t4 (by norm_num)
    simpa using h
  have hev : (fun f : ℝ => (1 / 1000 : ℝ)
        / Real.sqrt (((2 * Real.pi * f)⁻¹) ^ 2 + 1 / 1000000))
      =ᶠ[Filter.atTop] fun f => (Graph2.calc_theory f).2 := by
    filter_upwards [Filter.eventually_gt_atTop (0 : ℝ)] with f hf
    exact (graph2_G2_closed f hf).symm
  exact Filter.Tendsto.congr' hev t5

/-- C7: on pipeline 2's theory evaluator, the first channel (integrator
magnitude) is strictly decreasing in the frequency, and the second
channel (differentiator magnitude) is strictly increasing, bounded above
by 1, and approaches the finite limit 1 as the frequency grows, for
frequencies f > 0. -/
theorem graph2_theory_monotone_saturating :
    (∀ f1 f2 : ℝ, 0 < f1 → f1 < f2 →
        (Graph2.calc_theory f2).1 < (Graph2.calc_theory f1).1) ∧
    (∀ f1 f2 : ℝ, 0 < f1 → f1 < f2 →
        (Graph2.calc_theory f1).2 < (Graph2.calc_theory f2).2) ∧
    (∀ f : ℝ, 0 < f → (Graph2.calc_theory f).2 < 1) ∧
    Filter.Tendsto (fun f => (Graph2.calc_theory f).2)
      Filter.atTop (nhds 1) := by
  have hπ : (0 : ℝ) < 2 * Real.pi := by positivity
  refine ⟨?_, ?_, ?_, graph2_G2_tendsto⟩
  · intro f1 f2 hf1 hff
    show (1 : ℝ) / Real.sqrt (1 + Graph2.PARAM_B * (Graph2.PARAM_A * f2) ^ 2)
        < 1 / Real.sqrt (1 + Graph2.PARAM_B * (Graph2.PARAM_A * f1) ^ 2)
    rw [graph2_PARAM_B_eq]
    unfold Graph2.PARAM_A
    have hu1 : 0 < 2 * Real.pi * f1 := by positivity
    have hu2 : (2 : ℝ) * Real.pi * f1 < 2 * Real.pi * f2 := by
      exact (mul_lt_mul_left hπ).mpr hff
    have ha1 : (0 : ℝ) < 1 + 1 / 1000000 * (2 * Real.pi * f1) ^ 2 := by
      positivity
    have ha2 : (1 : ℝ) + 1 / 1000000 * (2 * Real.pi * f1) ^ 2
        < 1 + 1 / 1000000 * (2 * Real.pi * f2) ^ 2 := by
      nlinarith [hu1, hu2]
    have hsq : Real.sqrt (1 + 1 / 1000000 * (2 * Real.pi * f1) ^ 2)
        < Real.sqrt (1 + 1 / 1000000 * (2 * Real.pi * f2) ^ 2) :=
      Real.sqrt_lt_sqrt ha1.le ha2
    have hpos : 0 < Real.sqrt (1 + 1 / 1000000 * (2 * Real.pi * f1) ^ 2) :=
      Real.sqrt_pos.mpr ha1
    exact one_div_lt_one_div_of_lt hpos hsq
  · intro f1 f2 hf1 hff
    show Graph2.PARAM_C * (Graph2.PARAM_A * f1)
          / Real.sqrt (1 + Graph2.PARAM_B * (Graph2.PARAM_A * f1) ^ 2)
        < Graph2.PARAM_C * (Graph2.PARAM_A * f2)
          / Real.sqrt (1 + Graph2.PARAM_B * (Graph2.PARAM_A * f2) ^ 2)
    rw [graph2_PARAM_B_eq, graph2_PARAM_C_eq]
    unfold Graph2.PARAM_A
    exact g2_mono_aux (1 / 1000) (1 / 1000000) (2 * Real.pi * f1)
      (2 * Real.pi * f2) (by norm_num) (by norm_num)
      (by positivity) ((mul_lt_mul_left hπ).mpr hff)
  · intro f hf
    rw [graph2_G2_closed f hf]
    have h0 : (0 : ℝ) < ((2 * Real.pi * f)⁻¹) ^ 2 + 1 / 1000000 := by
      positivity
    have hlt : Real.sqrt (1 / 1000000)
        < Real.sqrt (((2 * Real.pi * f)⁻¹) ^ 2 + 1 / 1000000) := by
      apply Real.sqrt_lt_sqrt (by norm_num)
      have : (0 : ℝ) < ((2 * Real.pi * f)⁻¹) ^ 2 := by positivity
      linarith
    have hs : Real.sqrt (1 / 1000000) = 1 / 1000 := by
      rw [show (1 / 1000000 : ℝ) = (1 / 1000) ^ 2 by norm_num,
        Real.sqrt_sq (by norm_num)]
    rw [hs] at hlt
    have := div_lt_div_of_pos_left (by norm_num : (0 : ℝ) < 1 / 1000)
      (by norm_num : (0 : ℝ) < 1 / 1000) hlt
    simpa using this

/-- Witness for C7 at the concrete frequencies 1 and 2. -/
theorem graph2_theory_monotone_saturating_witness :
    (Graph2.calc_theory 2).1 < (Graph2.calc_theory 1).1 ∧
    (Graph2.calc_theory 1).2 < (Graph2.calc_theory 2).2 ∧
    (Graph2.calc_theory 1).2 < 1 :=
  ⟨graph2_theory_monotone_saturating.1 1 2 (by norm_num) (by norm_num),
   graph2_theory_monotone_saturating.2.1 1 2 (by norm_num) (by norm_num),
   graph2_theory_monotone_saturating.2.2.1 1 (by norm_num)⟩

namespace Data

/-- The same mask applied to two aligned series keeps them aligned. -/
lemma applyMask_length_eq {α β : Type} :
    ∀ (m : List Bool) (xs : List α) (ys : List β),
      xs.length = ys.length →
      (applyMask m xs).length = (applyMask m ys).length := by
  intro m
  induction m with
  | nil => intro xs ys h; simp [applyMask]
  | cons b ms ih =>
    intro xs ys h
    cases xs with
    | nil =>
      cases ys with
      | nil => cases b <;> simp [applyMask]
      | cons y ys => simp at h
    | cons x xs =>
      cases ys with
      | nil => simp at h
      | cons y ys =>
        simp only [List.length_cons, Nat.succ_inj] at h
        cases b with
        | true => simpa [applyMask] using ih xs ys h
        | false => simpa [applyMask] using ih xs ys h

/-- Every survivor of the first series passed the row predicate together
with some row mates. -/
lemma mem_applyMask_fst (p : Cell → Cell → Cell → Bool) :
    ∀ (xs ys zs : List Cell) (a : Cell),
      a ∈ applyMask (mask3 p xs ys zs) xs → ∃ b c, p a b c = true := by
  intro xs
  induction xs with
  | nil => intro ys zs a h; cases ys <;> cases zs <;> simp [mask3, applyMask] at h
  | cons x xs ih =>
    intro ys zs a h
    cases ys with
    | nil => simp [mask3, applyMask] at h
    | cons y ys =>
      cases zs with
      | nil => simp [mask3, applyMask] at h
      | cons z zs =>
        simp only [mask3] at h
        cases hp : p x y z with
        | true =>
          rw [hp] at h
          simp only [applyMask, List.mem_cons] at h
          rcases h with h | h
          · exact ⟨y, z, h ▸ hp⟩
          · exact ih ys zs a h
        | false =>
          rw [hp] at h
          simp only [applyMask] at h
          exact ih ys zs a h

/-- Every survivor of the second series passed the row predicate together
with some row mates. -/
lemma mem_applyMask_snd (p : Cell → Cell → Cell → Bool) :
    ∀ (xs ys zs : List Cell) (a : Cell),
      a ∈ applyMask (mask3 p xs ys zs) ys → ∃ b c, p b a c = true := by
  intro xs
  induction xs with
  | nil => intro ys zs a h; cases ys <;> cases zs <;> simp [mask3, applyMask] at h
  | cons x xs ih =>
    intro ys zs a h
    cases ys with
    | nil => simp [mask3, applyMask] at h
    | cons y ys =>
      cases zs with
      | nil => simp [mask3, applyMask] at h
      | cons z zs =>
        simp only [mask3] at h
        cases hp : p x y z with
        | true =>
          rw [hp] at h
          simp only [applyMask, List.mem_cons] at h
          rcases h with h | h
          · exact ⟨x, z, h ▸ hp⟩
          · exact ih ys zs a h
        | false =>
          rw [hp] at h
          simp only [applyMask] at h
          exact ih ys zs a h

/-- Every survivor of the third series passed the row predicate together
with some row mates. -/
lemma mem_applyMask_thd (p : Cell → Cell → Cell → Bool) :
    ∀ (xs ys zs : List Cell) (a : Cell),
      a ∈ applyMask (mask3 p xs ys zs) zs → ∃ b c, p b c a = true := by
  intro xs
  induction xs with
  | nil => intro ys zs a h; cases ys <;> cases zs <;> simp [mask3, applyMask] at h
  | cons x xs ih =>
    intro ys zs a h
    cases ys with
    | nil => simp [mask3, applyMask] at h
    | cons y ys =>
      cases zs with
      | nil => simp [mask3, applyMask] at h
      | cons z zs =>
        simp only [mask3] at h
        cases hp : p x y z with
        | true =>
          rw [hp] at h
          simp only [applyMask, List.mem_cons] at h
          rcases h with h | h
          · exact ⟨x, y, h ▸ hp⟩
          · exact ih ys zs a h
        | false =>
          rw [hp] at h
          simp only [applyMask] at h
          exact ih ys zs a h

end Data

/-- Helper: the first conjunct of the row predicate of グラフ1.py forces
the x cell to be a number. -/
lemma mask1cell_fst {a b c : Data.Cell} (h : Data.mask1cell a b c = true) :
    a.isSome := by
  cases a <;> simp [Data.mask1cell, Data.isnan] at h ⊢

/-- Helper: the second conjunct of the row predicate of グラフ1.py forces
the y1 cell to be a number. -/
lemma mask1cell_snd {a b c : Data.Cell} (h : Data.mask1cell a b c = true) :
    b.isSome := by
  cases b <;> simp [Data.mask1cell, Data.isnan] at h ⊢

/-- Helper: the third conjunct of the row predicate of グラフ1.py forces
the y2 cell to be a number. -/
lemma mask1cell_thd {a b c : Data.Cell} (h : Data.mask1cell a b c = true) :
    c.isSome := by
  cases c <;> simp [Data.mask1cell, Data.isnan] at h ⊢

/-- Helper: the row predicate of グラフ2.py forces the x cell to be a
strictly positive number. -/
lemma mask2cell_fst {a b c : Data.Cell} (h : Data.mask2cell a b c = true) :
    ∃ q, a = some q ∧ 0 < q := by
  cases a with
  | none => simp [Data.mask2cell, Data.posCell] at h
  | some q =>
    simp [Data.mask2cell, Data.posCell] at h
    refine ⟨q, rfl, ?_⟩
    tauto

/-- Helper: the row predicate of グラフ2.py forces the y1 cell to be a
strictly positive number. -/
lemma mask2cell_snd {a b c : Data.Cell} (h : Data.mask2cell a b c = true) :
    ∃ q, b = some q ∧ 0 < q := by
  cases b with
  | none => simp [Data.mask2cell, Data.posCell] at h
  | some q =>
    simp [Data.mask2cell, Data.posCell] at h
    refine ⟨q, rfl, ?_⟩
    tauto

/-- Helper: the row predicate of グラフ2.py forces the y2 cell to be a
strictly positive number. -/
lemma mask2cell_thd {a b c : Data.Cell} (h : Data.mask2cell a b c = true) :
    ∃ q, c = some q ∧ 0 < q := by
  cases c with
  | none => simp [Data.mask2cell, Data.posCell] at h
  | some q =>
    simp [Data.mask2cell, Data.posCell] at h
    refine ⟨q, rfl, ?_⟩
    tauto

/-- C2: after the validity filter of either script, the three sequences
have equal length and contain only finite values (pipeline 1), and in
pipeline 2 additionally only strictly positive values; the one boolean
mask is what is applied, identically, to all three sequences. -/
theorem cleaned_data_valid (xs ys zs : List Data.Cell)
    (hxy : xs.length = ys.length) (hyz : ys.length = zs.length) :
    ((Graph1.clean xs ys zs).1.length = (Graph1.clean xs ys zs).2.1.length ∧
     (Graph1.clean xs ys zs).2.1.length = (Graph1.clean xs ys zs).2.2.length) ∧
    ((∀ a ∈ (Graph1.clean xs ys zs).1, a.isSome) ∧
     (∀ a ∈ (Graph1.clean xs ys zs).2.1, a.isSome) ∧
     (∀ a ∈ (Graph1.clean xs ys zs).2.2, a.isSome)) ∧
    ((Graph2.clean xs ys zs).1.length = (Graph2.clean xs ys zs).2.1.length ∧
     (Graph2.clean xs ys zs).2.1.length = (Graph2.clean xs ys zs).2.2.length) ∧
    ((∀ a ∈ (Graph2.clean xs ys zs).1, ∃ q, a = some q ∧ 0 < q) ∧
     (∀ a ∈ (Graph2.clean xs ys zs).2.1, ∃ q, a = some q ∧ 0 < q) ∧
     (∀ a ∈ (Graph2.clean xs ys zs).2.2, ∃ q, a = some q ∧ 0 < q)) ∧
    (Graph1.clean xs ys zs =
      (Data.applyMask (Data.mask3 Data.mask1cell xs ys zs) xs,
       Data.applyMask (Data.mask3 Data.mask1cell xs ys zs) ys,
       Data.applyMask (Data.mask3 Data.mask1cell xs ys zs) zs) ∧
     Graph2.clean xs ys zs =
      (Data.applyMask (Data.mask3 Data.mask2cell xs ys zs) xs,
       Data.applyMask (Data.mask3 Data.mask2cell xs ys zs) ys,
       Data.applyMask (Data.mask3 Data.mask2cell xs ys zs) zs)) := by
  refine ⟨⟨?_, ?_⟩, ⟨?_, ?_, ?_⟩, ⟨?_, ?_⟩, ⟨?_, ?_, ?_⟩, rfl, rfl⟩
  · exact Data.applyMask_length_eq _ xs ys hxy
  · exact Data.applyMask_length_eq _ ys zs hyz
  · intro a ha
    obtain ⟨b, c, hp⟩ := Data.mem_applyMask_fst Data.mask1cell xs ys zs a ha
    exact mask1cell_fst hp
  · intro a ha
    obtain ⟨b, c, hp⟩ := Data.mem_applyMask_snd Data.mask1cell xs ys zs a ha
    exact mask1cell_snd hp
  · intro a ha
    obtain ⟨b, c, hp⟩ := Data.mem_applyMask_thd Data.mask1cell xs ys zs a ha
    exact mask1cell_thd hp
  · exact Data.applyMask_length_eq _ xs ys hxy
  · exact Data.applyMask_length_eq _ ys zs hyz
  · intro a ha
    obtain ⟨b, c, hp⟩ := Data.mem_applyMask_fst Data.mask2cell xs ys zs a ha
    exact mask2cell_fst hp
  · intro a ha
    obtain ⟨b, c, hp⟩ := Data.mem_applyMask_snd Data.mask2cell xs ys zs a ha
    exact mask2cell_snd hp
  · intro a ha
    obtain ⟨b, c, hp⟩ := Data.mem_applyMask_thd Data.mask2cell xs ys zs a ha
    exact mask2cell_thd hp

/-- Witness for C2 on a concrete two-row spreadsheet with one NaN row. -/
theorem cleaned_data_valid_witness :
    (Graph1.clean [some (1 : ℚ), none] [some 2, some 3] [some 4, some 5]).1.length
      = (Graph1.clean [some (1 : ℚ), none] [some 2, some 3] [some 4, some 5]).2.1.length :=
  (cleaned_data_valid [some (1 : ℚ), none] [some 2, some 3] [some 4, some 5]
    rfl rfl).1.1

/-- C10: under the validity mask of グラフ2.py every argument the
power-law fitter passes to np.log10 — each element of the cleaned x, y1
and y2 series — is a strictly positive number, so no logarithm is taken
of zero, of a negative value or of NaN. -/
theorem graph2_log10_args_positive (xs ys zs : List Data.Cell) :
    ∀ a ∈ Graph2.log10_args xs ys zs, ∃ q, a = some q ∧ 0 < q := by
  intro a ha
  unfold Graph2.log10_args at ha
  rcases List.mem_append.mp ha with ha | ha
  · rcases List.mem_append.mp ha with ha | ha
    · obtain ⟨b, c, hp⟩ := Data.mem_applyMask_fst Data.mask2cell xs ys zs a ha
      exact mask2cell_fst hp
    · obtain ⟨b, c, hp⟩ := Data.mem_applyMask_snd Data.mask2cell xs ys zs a ha
      exact mask2cell_snd hp
  · obtain ⟨b, c, hp⟩ := Data.mem_applyMask_thd Data.mask2cell xs ys zs a ha
    exact mask2cell_thd hp

/-- Witness for C10 on a concrete one-row spreadsheet. -/
theorem graph2_log10_args_positive_witness :
    ∃ q, (some (2 : ℚ) : Data.Cell) = some q ∧ 0 < q :=
  graph2_log10_args_positive [some 2] [some 3] [some 4] (some 2) (by decide)

/-- C3: the file-open step never escapes with an error, and when all
three platform openers fail it has attempted exactly the macOS, Windows
and Linux commands in that order and printed a message containing the
output file path. -/
theorem file_open_never_fatal (f1 f2 f3 : Bool) (path : String) :
    (∃ r, open_chain f1 f2 f3 path = Except.ok r) ∧
    (f1 = true → f2 = true → f3 = true →
      ∃ pre post, open_chain f1 f2 f3 path =
        Except.ok (["open", "start", "xdg-open"],
          some (pre ++ path ++ post))) := by
  constructor
  · cases f1 <;> cases f2 <;> cases f3 <;> exact ⟨_, rfl⟩
  · intro h1 h2 h3
    subst h1; subst h2; subst h3
    exact ⟨"グラフを保存しました: ", " ファイルを手動で開いてください。", rfl⟩

/-- Witness for C3 with all three openers failing on a concrete path. -/
theorem file_open_never_fatal_witness :
    ∃ pre post, open_chain true true true "グラフ1.png" =
      Except.ok (["open", "start", "xdg-open"],
        some (pre ++ "グラフ1.png" ++ post)) :=
  (file_open_never_fatal true true true "グラフ1.png").2 rfl rfl rfl

/-- Helper: a load stage errors as soon as one of its three columns is
absent (グラフ1.py). -/
lemma graph1_load_error_of_missing (table : List (String × List Data.Cell))
    (h : table.lookup Graph1.X_COL = none ∨
         table.lookup Graph1.Y1_COL = none ∨
         table.lookup Graph1.Y2_COL = none) :
    ∃ msg, Graph1.load table = Except.error msg := by
  rcases h with h | h | h
  · refine ⟨"KeyError: " ++ Graph1.X_COL, ?_⟩
    unfold Graph1.load getCol
    rw [h]
  · cases hx : table.lookup Graph1.X_COL with
    | none =>
      refine ⟨"KeyError: " ++ Graph1.X_COL, ?_⟩
      unfold Graph1.load getCol
      rw [hx]
    | some xv =>
      refine ⟨"KeyError: " ++ Graph1.Y1_COL, ?_⟩
      unfold Graph1.load getCol
      rw [hx, h]
  · cases hx : table.lookup Graph1.X_COL with
    | none =>
      refine ⟨"KeyError: " ++ Graph1.X_COL, ?_⟩
      unfold Graph1.load getCol
      rw [hx]
    | some xv =>
      cases hy : table.lookup Graph1.Y1_COL with
      | none =>
        refine ⟨"KeyError: " ++ Graph1.Y1_COL, ?_⟩
        unfold Graph1.load getCol
        rw [hx, hy]
      | some yv =>
        refine ⟨"KeyError: " ++ Graph1.Y2_COL, ?_⟩
        unfold Graph1.load getCol
        rw [hx, hy, h]

/-- Helper: a load stage errors as soon as one of its three columns is
absent (グラフ2.py). -/
lemma graph2_load_error_of_missing (table : List (String × List Data.Cell))
    (h : table.lookup Graph2.X_COL = none ∨
         table.lookup Graph2.Y1_COL = none ∨
         table.lookup Graph2.Y2_COL = none) :
    ∃ msg, Graph2.load table = Except.error msg := by
  rcases h with h | h | h
  · refine ⟨"KeyError: " ++ Graph2.X_COL, ?_⟩
    unfold Graph2.load getCol
    rw [h]
  · cases hx : table.lookup Graph2.X_COL with
    | none =>
      refine ⟨"KeyError: " ++ Graph2.X_COL, ?_⟩
      unfold Graph2.load getCol
      rw [hx]
    | some xv =>
      refine ⟨"KeyError: " ++ Graph2.Y1_COL, ?_⟩
      unfold Graph2.load getCol
      rw [hx, h]
  · cases hx : table.lookup Graph2.X_COL with
    | none =>
      refine ⟨"KeyError: " ++ Graph2.X_COL, ?_⟩
      unfold Graph2.load getCol
      rw [hx]
    | some xv =>
      cases hy : table.lookup Graph2.Y1_COL with
      | none =>
        refine ⟨"KeyError: " ++ Graph2.Y1_COL, ?_⟩
        unfold Graph2.load getCol
        rw [hx, hy]
      | some yv =>
        refine ⟨"KeyError: " ++ Graph2.Y2_COL, ?_⟩
        unfold Graph2.load getCol
        rw [hx, hy, h]

/-- Helper: a run aborts when its load stage errors (グラフ1.py). -/
lemma graph1_run_error_of_load_error (table : List (String × List Data.Cell))
    (r1 r2 : Except String (ℚ × ℚ × ℚ)) (e : String)
    (h : Graph1.load table = Except.error e) :
    Graph1.run table r1 r2 = Except.error e := by
  unfold Graph1.run
  rw [h]

/-- Helper: a run aborts when its load stage errors (グラフ2.py). -/
lemma graph2_run_error_of_load_error (table : List (String × List Data.Cell))
    (r1 r2 : Except String (ℚ × ℚ)) (e : String)
    (h : Graph2.load table = Except.error e) :
    Graph2.run table r1 r2 = Except.error e := by
  unfold Graph2.run
  rw [h]

/-- C8: if a required column is absent from the loaded spreadsheet, the
column access fails with a data error that nothing catches, so either
script's run aborts (no final state, hence nothing rendered or saved). -/
theorem missing_column_aborts :
    (∀ (table : List (String × List Data.Cell)) r1 r2,
        (table.lookup Graph1.X_COL = none ∨
         table.lookup Graph1.Y1_COL = none ∨
         table.lookup Graph1.Y2_COL = none) →
        ∃ msg, Graph1.run table r1 r2 = Except.error msg) ∧
    (∀ (table : List (String × List Data.Cell)) r1 r2,
        (table.lookup Graph2.X_COL = none ∨
         table.lookup Graph2.Y1_COL = none ∨
         table.lookup Graph2.Y2_COL = none) →
        ∃ msg, Graph2.run table r1 r2 = Except.error msg) := by
  constructor
  · intro table r1 r2 h
    obtain ⟨msg, hmsg⟩ := graph1_load_error_of_missing table h
    exact ⟨msg, graph1_run_error_of_load_error table r1 r2 msg hmsg⟩
  · intro table r1 r2 h
    obtain ⟨msg, hmsg⟩ := graph2_load_error_of_missing table h
    exact ⟨msg, graph2_run_error_of_load_error table r1 r2 msg hmsg⟩

/-- Witness for C8 on a concrete table that lacks the Temp2 column
(pipeline 1) and the Hz column (pipeline 2). -/
theorem missing_column_aborts_witness :
    (∃ msg, Graph1.run [("Time", [some 1]), ("Temp1", [some 2])]
        (Except.ok (0, 0, 0)) (Except.ok (0, 0, 0)) = Except.error msg) ∧
    (∃ msg, Graph2.run [("G_s", [some 1]), ("G_b", [some 2])]
        (Except.ok (0, 0)) (Except.ok (0, 0)) = Except.error msg) :=
  ⟨missing_column_aborts.1 [("Time", [some 1]), ("Temp1", [some 2])]
      (Except.ok (0, 0, 0)) (Except.ok (0, 0, 0)) (Or.inr (Or.inr rfl)),
   missing_column_aborts.2 [("G_s", [some 1]), ("G_b", [some 2])]
      (Except.ok (0, 0)) (Except.ok (0, 0)) (Or.inl rfl)⟩

/-- Helper: on a nonempty cleaned x series of グラフ1.py, max succeeds
(the cleaned series contains only numbers). -/
lemma seriesMax_clean1_ok (x y1 y2 : List Data.Cell)
    (h : (Graph1.clean x y1 y2).1 ≠ []) :
    ∃ m, seriesMax (Graph1.clean x y1 y2).1 = Except.ok m := by
  obtain ⟨a, as, heq⟩ := List.exists_cons_of_ne_nil h
  have hmem : a ∈ (Graph1.clean x y1 y2).1 := by
    rw [heq]; exact List.mem_cons_self a as
  obtain ⟨b, c, hp⟩ := Data.mem_applyMask_fst Data.mask1cell x y1 y2 a hmem
  obtain ⟨q, hq⟩ := Option.isSome_iff_exists.mp (mask1cell_fst hp)
  refine ⟨(as.filterMap id).foldl max q, ?_⟩
  rw [heq, hq]
  simp [seriesMax]

/-- C9: in pipeline 1, an empty cleaned data set makes max(x_data) raise
an uncaught ValueError, aborting the run before the image is saved;
conversely a run that reaches its final (saved) state must have had
nonempty cleaned data. -/
theorem graph1_empty_cleaned_aborts :
    (∀ (table : List (String × List Data.Cell)) x y1 y2 r1 r2,
        Graph1.load table = Except.ok (x, y1, y2) →
        (Graph1.clean x y1 y2).1 = [] →
        Graph1.run table r1 r2
          = Except.error "ValueError: max() arg is an empty sequence") ∧
    (∀ (table : List (String × List Data.Cell)) r1 r2 st,
        Graph1.run table r1 r2 = Except.ok st →
        ∃ x y1 y2, Graph1.load table = Except.ok (x, y1, y2) ∧
          (Graph1.clean x y1 y2).1 ≠ []) := by
  constructor
  · intro table x y1 y2 r1 r2 hload hclean
    unfold Graph1.run
    rw [hload]
    dsimp only
    rw [hclean]
    rfl
  · intro table r1 r2 st hrun
    unfold Graph1.run at hrun
    cases hload : Graph1.load table with
    | error e => rw [hload] at hrun; exact absurd hrun (by simp)
    | ok triple =>
      obtain ⟨x, y1, y2⟩ := triple
      rw [hload] at hrun
      dsimp only at hrun
      refine ⟨x, y1, y2, rfl, ?_⟩
      intro hempty
      rw [hempty] at hrun
      simp [seriesMax] at hrun

/-- Witness for C9 on a concrete table whose only x value is NaN, so the
mask removes every row. -/
theorem graph1_empty_cleaned_aborts_witness :
    Graph1.run [("Time", [none]), ("Temp1", [some 1]), ("Temp2", [some 1])]
        (Except.ok (0, 0, 0)) (Except.ok (0, 0, 0))
      = Except.error "ValueError: max() arg is an empty sequence" :=
  graph1_empty_cleaned_aborts.1
    [("Time", [none]), ("Temp1", [some 1]), ("Temp2", [some 1])]
    [none] [some 1] [some 1] (Except.ok (0, 0, 0)) (Except.ok (0, 0, 0))
    rfl rfl

/-- C4: when a least-squares fit computation raises, the exception is
caught at the fitter boundary, the two skip messages are logged, the
raising fit series (and everything after it in the try block) is omitted,
and the run still reaches its final saved state — in either pipeline, for
a failure of the first fit or of the second (pipeline 1 additionally
needs nonempty cleaned data to reach the fit stage at all, see C9). -/
theorem fit_failure_non_fatal :
    (∀ (table : List (String × List Data.Cell)) x y1 y2 e r2,
        Graph1.load table = Except.ok (x, y1, y2) →
        (Graph1.clean x y1 y2).1 ≠ [] →
        ∃ st : Graph1.RunState,
          Graph1.run table (Except.error e) r2 = Except.ok st ∧
          st.saved = true ∧ st.fitDrawn = (false, false) ∧
          st.fitLogs = ["近似曲線の計算でエラーが発生しました: " ++ e,
                        "近似曲線の表示をスキップします"]) ∧
    (∀ (table : List (String × List Data.Cell)) x y1 y2 e r2,
        Graph2.load table = Except.ok (x, y1, y2) →
        ∃ st : Graph2.RunState,
          Graph2.run table (Except.error e) r2 = Except.ok st ∧
          st.saved = true ∧ st.fitDrawn = (false, false) ∧
          st.fitLogs = ["近似直線の計算でエラーが発生しました: " ++ e,
                        "近似直線の表示をスキップします"]) ∧
    (∀ (table : List (String × List Data.Cell)) x y1 y2 c1 e,
        Graph1.load table = Except.ok (x, y1, y2) →
        (Graph1.clean x y1 y2).1 ≠ [] →
        ∃ st : Graph1.RunState,
          Graph1.run table (Except.ok c1) (Except.error e) = Except.ok st ∧
          st.saved = true ∧ st.fitDrawn = (true, false) ∧
          st.fitLogs = ["近似曲線の計算でエラーが発生しました: " ++ e,
                        "近似曲線の表示をスキップします"]) ∧
    (∀ (table : List (String × List Data.Cell)) x y1 y2 c1 e,
        Graph2.load table = Except.ok (x, y1, y2) →
        ∃ st : Graph2.RunState,
          Graph2.run table (Except.ok c1) (Except.error e) = Except.ok st ∧
          st.saved = true ∧ st.fitDrawn = (true, false) ∧
          st.fitLogs = ["近似直線の計算でエラーが発生しました: " ++ e,
                        "近似直線の表示をスキップします"]) := by
  refine ⟨?_, ?_, ?_, ?_⟩
  · intro table x y1 y2 e r2 hload hne
    obtain ⟨m, hm⟩ := seriesMax_clean1_ok x y1 y2 hne
    refine ⟨{ xmax := m
              fitDrawn := (false, false)
              fitLogs := ["近似曲線の計算でエラーが発生しました: " ++ e,
                          "近似曲線の表示をスキップします"]
              saved := true }, ?_, rfl, rfl, rfl⟩
    unfold Graph1.run
    rw [hload]
    dsimp only
    rw [hm]
    rfl
  · intro table x y1 y2 e r2 hload
    refine ⟨{ fitDrawn := (false, false)
              fitLogs := ["近似直線の計算でエラーが発生しました: " ++ e,
                          "近似直線の表示をスキップします"]
              saved := true }, ?_, rfl, rfl, rfl⟩
    unfold Graph2.run
    rw [hload]
    rfl
  · intro table x y1 y2 c1 e hload hne
    obtain ⟨m, hm⟩ := seriesMax_clean1_ok x y1 y2 hne
    refine ⟨{ xmax := m
              fitDrawn := (true, false)
              fitLogs := ["近似曲線の計算でエラーが発生しました: " ++ e,
                          "近似曲線の表示をスキップします"]
              saved := true }, ?_, rfl, rfl, rfl⟩
    unfold Graph1.run
    rw [hload]
    dsimp only
    rw [hm]
    rfl
  · intro table x y1 y2 c1 e hload
    refine ⟨{ fitDrawn := (true, false)
              fitLogs := ["近似直線の計算でエラーが発生しました: " ++ e,
                          "近似直線の表示をスキップします"]
              saved := true }, ?_, rfl, rfl, rfl⟩
    unfold Graph2.run
    rw [hload]
    rfl

/-- Witness for C4 on a concrete table, with the first polyfit raising. -/
theorem fit_failure_non_fatal_witness :
    ∃ st : Graph1.RunState,
      Graph1.run [("Time", [some 1]), ("Temp1", [some 2]), ("Temp2", [some 3])]
          (Except.error "SVD did not converge") (Except.ok (0, 0, 0))
        = Except.ok st ∧
      st.saved = true ∧ st.fitDrawn = (false, false) ∧
      st.fitLogs = ["近似曲線の計算でエラーが発生しました: SVD did not converge",
                    "近似曲線の表示をスキップします"] :=
  fit_failure_non_fatal.1
    [("Time", [some 1]), ("Temp1", [some 2]), ("Temp2", [some 3])]
    [some 1] [some 2] [some 3] "SVD did not converge" (Except.ok (0, 0, 0))
    rfl (by decide)
